import Mathlib

/-!
# Product routes (`src/routes/productRoutes.js`)

A shallow embedding of the Express router of the product catalogue: the
`checkConnection` middleware and the five route handlers.  The handlers are
written in explicit state-passing style over a world (the model calls issued, the
lines logged and the responses written), with an outcome that is either normal
completion or a thrown error (JavaScript `throw`, a rejected `await`, or
`JSON.stringify` throwing inside `res.json`).  The Mongoose model `Product`, its
documents and the connection object are external to the file; they enter as the
parameters `Db` and `Env`.
-/

namespace ProductRoutes

/-! ## Data model -/

/-- An error object as the `catch` blocks read it: `err.name` and `err.message`.
Everything the driver and Mongoose throw or reject with is an `Error`, whose
`name` and `message` are strings. -/
structure JsError where
  name : String
  message : String
deriving DecidableEq

/-- A value of `req.query` as the query-string parser produces it: a string, an
array, or a nested object. -/
inductive QVal where
  | str (s : String)
  | arr (items : List QVal)
  | obj (entries : List (String × QVal))

/-- JavaScript truthiness of a parsed query value: only the empty string is falsy,
arrays and objects are always truthy. -/
def QVal.truthy : QVal → Bool
  | .str s => s != ""
  | .arr _ => true
  | .obj _ => true

/-- Truthiness of a possibly `undefined` query parameter (`if (category)`). -/
def truthy : Option QVal → Bool
  | none => false
  | some v => v.truthy

/-- A scalar stored in a JSON object literal of this file: a string or a number. -/
inductive JsVal where
  | str (s : String)
  | num (n : Int)
deriving DecidableEq

/-- A response body passed to `res.json`: an object literal, one product document,
or an array of product documents. -/
inductive Body (Doc : Type) where
  | obj (fields : List (String × JsVal))
  | doc (d : Doc)
  | docs (ds : List Doc)

/-- The value of key `k` in an object-literal body. -/
def Body.field? {Doc : Type} : Body Doc → String → Option JsVal
  | .obj fields, k => fields.lookup k
  | .doc _, _ => none
  | .docs _, _ => none

/-- One HTTP response: the status code and the JSON body. -/
structure Response (Doc : Type) where
  status : Nat
  body : Body Doc

/-- One branch of the `$or` array: `{ <field>: { $regex: ..., $options: ... } }`. -/
structure RegexClause where
  field : String
  regex : QVal
  options : String

/-- The filter object `query` of the list handler: the key `category` and the key
`$or`, each present or absent. -/
structure Filter where
  category : Option QVal
  or : Option (List RegexClause)

/-- The third argument of `findByIdAndUpdate`. -/
structure UpdateOptions where
  new : Bool
  runValidators : Bool
deriving DecidableEq

/-- A call on the `Product` model, with the arguments it is issued with. -/
inductive DbCall (Doc Payload : Type) where
  | find (filter : Filter) (sort : List (String × Int)) (maxTimeMS : Nat)
  | findById (id : String) (maxTimeMS : Nat)
  | construct (body : Payload)
  | save (doc : Doc)
  | findByIdAndUpdate (id : String) (update : Payload) (options : UpdateOptions)
  | findByIdAndDelete (id : String)

/-- The `Product` model: what each call resolves to (`Except.ok`) or throws / rejects
with (`Except.error`).  Lookups resolve to `null` (`none`) when nothing matches;
`save` gives the document as it is once saved; `stringify` is what `JSON.stringify`
does on one of the model's documents, complete or throw. -/
structure Db (Doc Payload : Type) where
  find : Filter → List (String × Int) → Nat → Except JsError (List Doc)
  findById : String → Nat → Except JsError (Option Doc)
  construct : Payload → Except JsError Doc
  save : Doc → Except JsError Doc
  findByIdAndUpdate : String → Payload → UpdateOptions → Except JsError (Option Doc)
  findByIdAndDelete : String → Except JsError (Option Doc)
  stringify : Doc → Except JsError Unit

/-- The function `JSON.stringify` on an array of documents: in order, up to the first
that throws. -/
def stringifyAll {Doc : Type} (stringify : Doc → Except JsError Unit) :
    List Doc → Except JsError Unit
  | [] => .ok ()
  | d :: ds =>
    match stringify d with
    | .ok _ => stringifyAll stringify ds
    | .error e => .error e

/-- The function `JSON.stringify` on a body given to `res.json`: an object literal of
strings and numbers always serialises, a document or an array of documents as the
documents do. -/
def stringifyBody {Doc : Type} (stringify : Doc → Except JsError Unit) :
    Body Doc → Except JsError Unit
  | .obj _ => .ok ()
  | .doc d => stringify d
  | .docs ds => stringifyAll stringify ds

/-- The module-level state the handlers can read: `mongoose.connection.readyState`. -/
structure Env where
  readyState : Int

/-- The parts of `req` the handlers read. -/
structure Request (Payload : Type) where
  category : Option QVal
  search : Option QVal
  id : String
  body : Payload

/-- What a request has done so far: driver calls issued, lines written with
`console.error`, responses written with `res.json`, in order. -/
structure World (Doc Payload : Type) where
  calls : List (DbCall Doc Payload)
  logs : List (String × JsError)
  sent : List (Response Doc)

/-- The world at the start of a request. -/
def World.init {Doc Payload : Type} : World Doc Payload :=
  { calls := [], logs := [], sent := [] }

/-- Handler code: a world transformer that either completes with a value or throws a
`JsError`. -/
def Js (Doc Payload α : Type) : Type :=
  World Doc Payload → Except JsError α × World Doc Payload

/-- Sequencing of statements: a throw skips the rest. -/
def Js.bind {Doc Payload α β : Type} (m : Js Doc Payload α) (f : α → Js Doc Payload β) :
    Js Doc Payload β :=
  fun w =>
    match m w with
    | (.ok a, w1) => f a w1
    | (.error e, w1) => (.error e, w1)

/-- The statement `try { body } catch (err) { handler }`. -/
def Js.tryCatch {Doc Payload α : Type} (body : Js Doc Payload α)
    (handler : JsError → Js Doc Payload α) : Js Doc Payload α :=
  fun w =>
    match body w with
    | (.ok a, w1) => (.ok a, w1)
    | (.error e, w1) => handler e w1

instance {Doc Payload : Type} : Monad (Js Doc Payload) where
  pure a := fun w => (.ok a, w)
  bind := Js.bind

instance {Doc Payload : Type} : MonadExcept JsError (Js Doc Payload) where
  throw e := fun w => (.error e, w)
  tryCatch := Js.tryCatch

section Handlers

variable {Doc Payload : Type}

/-! ## Effects -/

/-- The call `res.status(status).json(body)`; `res.json(body)` is the case 200.  The
body is serialised first: if that throws, the error is thrown to the caller and no
response is written. -/
def resJson (db : Db Doc Payload) (status : Nat) (body : Body Doc) : Js Doc Payload Unit :=
  fun w =>
    match stringifyBody db.stringify body with
    | .ok _ => (.ok (), { w with sent := w.sent ++ [{ status := status, body := body }] })
    | .error e => (.error e, w)

/-- The call `console.error(label, err)`. -/
def consoleError (label : String) (err : JsError) : Js Doc Payload Unit :=
  fun w => (.ok (), { w with logs := w.logs ++ [(label, err)] })

/-- Evaluate a call on the `Product` model (awaited where the source awaits it): the
call is recorded, and what it throws or rejects with is thrown. -/
def modelCall {α : Type} (call : DbCall Doc Payload) (outcome : Except JsError α) :
    Js Doc Payload α :=
  fun w => (outcome, { w with calls := w.calls ++ [call] })

/-! ## The middleware and the handlers -/

/-- Lines 7-16: `checkConnection`. -/
def checkConnection (env : Env) (db : Db Doc Payload) (next : Js Doc Payload Unit) :
    Js Doc Payload Unit := do
  if env.readyState ≠ 1 then
    return (← resJson db 503 (.obj
      [("error", .str "Database connection not available"),
       ("message", .str "MongoDB is not connected. Please check your database connection string and try again."),
       ("readyState", .num env.readyState)]))
  next

/-- Lines 21-33: the filter built from `req.query`. -/
def buildQuery (category search : Option QVal) : Filter := Id.run do
  let mut query : Filter := { category := none, or := none }
  if truthy category then
    query := { query with category := category }
  if truthy search then
    match search with
    | some s =>
      query := { query with or := some (
        [{ field := "name", regex := s, options := "i" },
         { field := "description", regex := s, options := "i" }]) }
    | none => pure ()
  return query

/-- The test `err.name === 'MongoServerSelectionError' || err.name === 'MongoNetworkError'`. -/
def isConnectionError (err : JsError) : Bool :=
  err.name == "MongoServerSelectionError" || err.name == "MongoNetworkError"

/-- Lines 19-47: the handler of `GET /`. -/
def getAllProducts (_env : Env) (db : Db Doc Payload) (req : Request Payload) :
    Js Doc Payload Unit :=
  tryCatch
    (do
      let query := buildQuery req.category req.search
      let products ← modelCall (.find query [("createdAt", -1)] 30000)
        (db.find query [("createdAt", -1)] 30000)
      resJson db 200 (.docs products))
    (fun err => do
      consoleError "Error fetching products:" err
      if isConnectionError err then
        return (← resJson db 503 (.obj
          [("error", .str "Database connection error"),
           ("message", .str "Unable to connect to MongoDB. Please check your database connection.")]))
      resJson db 500 (.obj [("error", .str err.message)]))

/-- Lines 50-67: the handler of `GET /:id`. -/
def getSingleProduct (_env : Env) (db : Db Doc Payload) (req : Request Payload) :
    Js Doc Payload Unit :=
  tryCatch
    (do
      let product ← modelCall (.findById req.id 30000) (db.findById req.id 30000)
      match product with
      | none => return (← resJson db 404 (.obj [("error", .str "Product not found")]))
      | some p => resJson db 200 (.doc p))
    (fun err => do
      consoleError "Error fetching product:" err
      if isConnectionError err then
        return (← resJson db 503 (.obj
          [("error", .str "Database connection error"),
           ("message", .str "Unable to connect to MongoDB. Please check your database connection.")]))
      resJson db 500 (.obj [("error", .str err.message)]))

/-- Lines 70-78: the handler of `POST /`. -/
def createProduct (_env : Env) (db : Db Doc Payload) (req : Request Payload) :
    Js Doc Payload Unit :=
  tryCatch
    (do
      let product ← modelCall (.construct req.body) (db.construct req.body)
      let product ← modelCall (.save product) (db.save product)
      resJson db 201 (.doc product))
    (fun err => resJson db 400 (.obj [("error", .str err.message)]))

/-- Lines 81-95: the handler of `PUT /:id`. -/
def updateProduct (_env : Env) (db : Db Doc Payload) (req : Request Payload) :
    Js Doc Payload Unit :=
  tryCatch
    (do
      let options : UpdateOptions := { new := true, runValidators := true }
      let product ← modelCall (.findByIdAndUpdate req.id req.body options)
        (db.findByIdAndUpdate req.id req.body options)
      match product with
      | none => return (← resJson db 404 (.obj [("error", .str "Product not found")]))
      | some p => resJson db 200 (.doc p))
    (fun err => resJson db 400 (.obj [("error", .str err.message)]))

/-- Lines 98-108: the handler of `DELETE /:id`. -/
def deleteProduct (_env : Env) (db : Db Doc Payload) (req : Request Payload) :
    Js Doc Payload Unit :=
  tryCatch
    (do
      let product ← modelCall (.findByIdAndDelete req.id) (db.findByIdAndDelete req.id)
      match product with
      | none => return (← resJson db 404 (.obj [("error", .str "Product not found")]))
      | some _ => resJson db 200 (.obj [("message", .str "Product deleted successfully")]))
    (fun err => resJson db 500 (.obj [("error", .str err.message)]))

/-! ## The routes -/

/-- The route `router.get("/", checkConnection, ...)`. -/
def routeGetAll (env : Env) (db : Db Doc Payload) (req : Request Payload) :
    Js Doc Payload Unit :=
  checkConnection env db (getAllProducts env db req)

/-- The route `router.get("/:id", checkConnection, ...)`. -/
def routeGetOne (env : Env) (db : Db Doc Payload) (req : Request Payload) :
    Js Doc Payload Unit :=
  checkConnection env db (getSingleProduct env db req)

/-- The route `router.post("/", ...)`. -/
def routePost (env : Env) (db : Db Doc Payload) (req : Request Payload) :
    Js Doc Payload Unit :=
  createProduct env db req

/-- The route `router.put("/:id", ...)`. -/
def routePut (env : Env) (db : Db Doc Payload) (req : Request Payload) :
    Js Doc Payload Unit :=
  updateProduct env db req

/-- The route `router.delete("/:id", ...)`. -/
def routeDelete (env : Env) (db : Db Doc Payload) (req : Request Payload) :
    Js Doc Payload Unit :=
  deleteProduct env db req

/-- Run a route on a fresh request: whether anything was thrown out of it, and the
final world. -/
def serve (route : Js Doc Payload Unit) : Except JsError Unit × World Doc Payload :=
  route World.init

/-- The responses a route writes for a fresh request. -/
def responses (route : Js Doc Payload Unit) : List (Response Doc) :=
  (serve route).2.sent

/-- The driver calls a route issues for a fresh request. -/
def dbCalls (route : Js Doc Payload Unit) : List (DbCall Doc Payload) :=
  (serve route).2.calls

/-- Whether a failure propagates out of the route. -/
def escapes (route : Js Doc Payload Unit) : Bool :=
  match (serve route).1 with
  | .ok _ => false
  | .error _ => true

end Handlers


/-! ## Sample inputs -/

/-- A request with a category, a search text, an identifier and a body. -/
def sampleReq : Request String :=
  { category := some (.str "shoes"), search := some (.str "red"), id := "42", body := "payload" }

/-- A request without query parameters. -/
def plainReq : Request String :=
  { category := none, search := some (.str ""), id := "7", body := "payload" }

/-- A model on which every call succeeds; documents are numbers. -/
def okDb : Db Nat String :=
  { find := fun _ _ _ => .ok [3, 2, 1]
    findById := fun _ _ => .ok (some 5)
    construct := fun _ => .ok 8
    save := fun d => .ok (d + 1)
    findByIdAndUpdate := fun _ _ _ => .ok (some 6)
    findByIdAndDelete := fun _ => .ok (some 7)
    stringify := fun _ => .ok () }

/-- A model with no matching document. -/
def emptyDb : Db Nat String :=
  { find := fun _ _ _ => .ok []
    findById := fun _ _ => .ok none
    construct := fun _ => .ok 8
    save := fun d => .ok d
    findByIdAndUpdate := fun _ _ _ => .ok none
    findByIdAndDelete := fun _ => .ok none
    stringify := fun _ => .ok () }

/-- A model whose every call fails with the given error. -/
def failingDb (e : JsError) : Db Nat String :=
  { find := fun _ _ _ => .error e
    findById := fun _ _ => .error e
    construct := fun _ => .error e
    save := fun _ => .error e
    findByIdAndUpdate := fun _ _ _ => .error e
    findByIdAndDelete := fun _ => .error e
    stringify := fun _ => .ok () }

/-- The error `JSON.stringify` throws on a document that refers to itself. -/
def circularError : JsError :=
  { name := "TypeError", message := "Converting circular structure to JSON" }

/-- A model on which every call succeeds and whose document 0 does not serialise. -/
def circularDb : Db Nat String :=
  { find := fun _ _ _ => .ok [3, 0, 1]
    findById := fun _ _ => .ok (some 0)
    construct := fun _ => .ok 0
    save := fun d => .ok d
    findByIdAndUpdate := fun _ _ _ => .ok (some 0)
    findByIdAndDelete := fun _ => .ok (some 0)
    stringify := fun d => if d = 0 then .error circularError else .ok () }

/-- The driver error of a lost connection. -/
def networkError : JsError :=
  { name := "MongoNetworkError", message := "connection closed" }

/-- The Mongoose error for a malformed identifier. -/
def castError : JsError :=
  { name := "CastError", message := "Cast to ObjectId failed" }

/-- The body of the guard's response for connectivity state `s`. -/
def guardBody {Doc : Type} (s : Int) : Body Doc :=
  .obj
    [("error", .str "Database connection not available"),
     ("message", .str "MongoDB is not connected. Please check your database connection string and try again."),
     ("readyState", .num s)]

/-- The body of the handlers' response to a connection error. -/
def connectionErrorBody {Doc : Type} : Body Doc :=
  .obj
    [("error", .str "Database connection error"),
     ("message", .str "Unable to connect to MongoDB. Please check your database connection.")]

/-- The body `{ error: msg }`. -/
def errorBody {Doc : Type} (msg : String) : Body Doc :=
  .obj [("error", .str msg)]

/-- The response of a read handler's `catch` block to the error it caught. -/
def readFailure {Doc : Type} (e : JsError) : Response Doc :=
  if isConnectionError e then ⟨503, connectionErrorBody⟩ else ⟨500, errorBody e.message⟩

/-! ## Running the handlers -/

section Run

variable {Doc Payload : Type}

theorem run_pure {α : Type} (a : α) (w : World Doc Payload) :
    (pure a : Js Doc Payload α) w = (.ok a, w) := rfl

theorem run_bind {α β : Type} (m : Js Doc Payload α) (f : α → Js Doc Payload β)
    (w : World Doc Payload) :
    (m >>= f) w =
      match m w with
      | (.ok a, w1) => f a w1
      | (.error e, w1) => (.error e, w1) := rfl

theorem run_tryCatch {α : Type} (m : Js Doc Payload α) (handler : JsError → Js Doc Payload α)
    (w : World Doc Payload) :
    (tryCatch m handler) w =
      match m w with
      | (.ok a, w1) => (.ok a, w1)
      | (.error e, w1) => handler e w1 := rfl

theorem run_resJson_obj (db : Db Doc Payload) (status : Nat) (fields : List (String × JsVal))
    (w : World Doc Payload) :
    (resJson db status (.obj fields)) w =
      (.ok (), { w with sent := w.sent ++ [⟨status, .obj fields⟩] }) := rfl

theorem run_resJson_doc (db : Db Doc Payload) (status : Nat) (d : Doc)
    (w : World Doc Payload) :
    (resJson db status (.doc d)) w =
      match db.stringify d with
      | .ok _ => (.ok (), { w with sent := w.sent ++ [⟨status, .doc d⟩] })
      | .error e => (.error e, w) := rfl

theorem run_resJson_docs (db : Db Doc Payload) (status : Nat) (ds : List Doc)
    (w : World Doc Payload) :
    (resJson db status (.docs ds)) w =
      match stringifyAll db.stringify ds with
      | .ok _ => (.ok (), { w with sent := w.sent ++ [⟨status, .docs ds⟩] })
      | .error e => (.error e, w) := rfl

theorem run_consoleError (label : String) (err : JsError) (w : World Doc Payload) :
    (consoleError label err : Js Doc Payload Unit) w =
      (.ok (), { w with logs := w.logs ++ [(label, err)] }) := rfl

theorem run_modelCall {α : Type} (call : DbCall Doc Payload) (outcome : Except JsError α)
    (w : World Doc Payload) :
    (modelCall call outcome) w = (outcome, { w with calls := w.calls ++ [call] }) := rfl

theorem run_ite {α : Type} (c : Prop) [Decidable c] (a b : Js Doc Payload α)
    (w : World Doc Payload) :
    (if c then a else b) w = if c then a w else b w := by
  split <;> rfl

/-- An array serialises exactly when each of its documents does. -/
theorem stringifyAll_ok_iff (stringify : Doc → Except JsError Unit) (ds : List Doc) :
    stringifyAll stringify ds = .ok () ↔ ∀ d ∈ ds, stringify d = .ok () := by
  induction ds with
  | nil => simp [stringifyAll]
  | cons d ds ih =>
    unfold stringifyAll
    cases h : stringify d with
    | ok u => simp [ih, h]
    | error e => simp [h]

/-- The guard with the connection not ready: one 503 response, `next` is not run. -/
theorem serve_checkConnection_closed (env : Env) (db : Db Doc Payload)
    (next : Js Doc Payload Unit) (h : env.readyState ≠ 1) :
    serve (checkConnection env db next) =
      (.ok (), { calls := [], logs := [], sent := [⟨503, guardBody env.readyState⟩] }) := by
  unfold serve checkConnection
  simp only [run_bind, run_resJson_obj, run_ite, run_pure]
  simp [h, World.init, guardBody]

/-- The guard with the connection ready: the request goes to `next` unchanged. -/
theorem serve_checkConnection_open (env : Env) (db : Db Doc Payload)
    (next : Js Doc Payload Unit) (h : env.readyState = 1) :
    serve (checkConnection env db next) = serve next := by
  unfold serve checkConnection
  simp only [run_bind, run_resJson_obj, run_ite, run_pure]
  simp [h]

/-- Every run of the list handler, by the outcome of `find` and of serialising. -/
theorem serve_getAllProducts (env : Env) (db : Db Doc Payload) (req : Request Payload) :
    serve (getAllProducts env db req) =
      match db.find (buildQuery req.category req.search) [("createdAt", -1)] 30000 with
      | .ok ps =>
        match stringifyAll db.stringify ps with
        | .ok _ =>
          (.ok (), { calls := [.find (buildQuery req.category req.search) [("createdAt", -1)] 30000],
                     logs := [], sent := [⟨200, .docs ps⟩] })
        | .error e =>
          (.ok (), { calls := [.find (buildQuery req.category req.search) [("createdAt", -1)] 30000],
                     logs := [("Error fetching products:", e)], sent := [readFailure e] })
      | .error e =>
        (.ok (), { calls := [.find (buildQuery req.category req.search) [("createdAt", -1)] 30000],
                   logs := [("Error fetching products:", e)], sent := [readFailure e] }) := by
  unfold serve getAllProducts
  simp only [run_tryCatch, run_bind, run_modelCall, run_resJson_obj, run_resJson_docs,
    run_consoleError, run_ite, run_pure]
  cases db.find (buildQuery req.category req.search) [("createdAt", -1)] 30000 with
  | ok ps =>
    simp only []
    cases stringifyAll db.stringify ps with
    | ok u => rfl
    | error e =>
      cases hc : isConnectionError e <;>
        simp [hc, World.init, readFailure, connectionErrorBody, errorBody]
  | error e =>
    cases hc : isConnectionError e <;>
      simp [hc, World.init, readFailure, connectionErrorBody, errorBody]

/-- Every run of the get-one handler, by the outcome of `findById` and of serialising. -/
theorem serve_getSingleProduct (env : Env) (db : Db Doc Payload) (req : Request Payload) :
    serve (getSingleProduct env db req) =
      match db.findById req.id 30000 with
      | .ok (some p) =>
        match db.stringify p with
        | .ok _ =>
          (.ok (), { calls := [.findById req.id 30000], logs := [], sent := [⟨200, .doc p⟩] })
        | .error e =>
          (.ok (), { calls := [.findById req.id 30000],
                     logs := [("Error fetching product:", e)], sent := [readFailure e] })
      | .ok none =>
        (.ok (), { calls := [.findById req.id 30000], logs := [],
                   sent := [⟨404, errorBody "Product not found"⟩] })
      | .error e =>
        (.ok (), { calls := [.findById req.id 30000],
                   logs := [("Error fetching product:", e)], sent := [readFailure e] }) := by
  unfold serve getSingleProduct
  simp only [run_tryCatch, run_bind, run_modelCall, run_resJson_obj, run_resJson_doc,
    run_consoleError, run_ite, run_pure]
  cases db.findById req.id 30000 with
  | ok p =>
    cases p with
    | none => rfl
    | some p =>
      simp only [run_resJson_doc]
      cases db.stringify p with
      | ok u => rfl
      | error e =>
        cases hc : isConnectionError e <;>
          simp [hc, World.init, readFailure, connectionErrorBody, errorBody]
  | error e =>
    cases hc : isConnectionError e <;>
      simp [hc, World.init, readFailure, connectionErrorBody, errorBody]

/-- Every run of the create handler, by the outcomes of the constructor, of `save` and
of serialising. -/
theorem serve_createProduct (env : Env) (db : Db Doc Payload) (req : Request Payload) :
    serve (createProduct env db req) =
      match db.construct req.body with
      | .ok d =>
        match db.save d with
        | .ok saved =>
          match db.stringify saved with
          | .ok _ =>
            (.ok (), { calls := [.construct req.body, .save d], logs := [],
                       sent := [⟨201, .doc saved⟩] })
          | .error e =>
            (.ok (), { calls := [.construct req.body, .save d], logs := [],
                       sent := [⟨400, errorBody e.message⟩] })
        | .error e =>
          (.ok (), { calls := [.construct req.body, .save d], logs := [],
                     sent := [⟨400, errorBody e.message⟩] })
      | .error e =>
        (.ok (), { calls := [.construct req.body], logs := [],
                   sent := [⟨400, errorBody e.message⟩] }) := by
  unfold serve createProduct
  simp only [run_tryCatch, run_bind, run_modelCall, run_resJson_obj, run_resJson_doc, run_pure]
  cases db.construct req.body with
  | ok d =>
    simp only []
    cases db.save d with
    | ok saved =>
      simp only [run_resJson_doc]
      cases db.stringify saved <;> rfl
    | error e => rfl
  | error e => rfl

/-- Every run of the update handler, by the outcome of `findByIdAndUpdate` and of
serialising. -/
theorem serve_updateProduct (env : Env) (db : Db Doc Payload) (req : Request Payload) :
    serve (updateProduct env db req) =
      match db.findByIdAndUpdate req.id req.body { new := true, runValidators := true } with
      | .ok (some p) =>
        match db.stringify p with
        | .ok _ =>
          (.ok (), { calls := [.findByIdAndUpdate req.id req.body
                       { new := true, runValidators := true }],
                     logs := [], sent := [⟨200, .doc p⟩] })
        | .error e =>
          (.ok (), { calls := [.findByIdAndUpdate req.id req.body
                       { new := true, runValidators := true }],
                     logs := [], sent := [⟨400, errorBody e.message⟩] })
      | .ok none =>
        (.ok (), { calls := [.findByIdAndUpdate req.id req.body
                     { new := true, runValidators := true }],
                   logs := [], sent := [⟨404, errorBody "Product not found"⟩] })
      | .error e =>
        (.ok (), { calls := [.findByIdAndUpdate req.id req.body
                     { new := true, runValidators := true }],
                   logs := [], sent := [⟨400, errorBody e.message⟩] }) := by
  unfold serve updateProduct
  simp only [run_tryCatch, run_bind, run_modelCall, run_resJson_obj, run_resJson_doc, run_pure]
  cases db.findByIdAndUpdate req.id req.body { new := true, runValidators := true } with
  | ok p =>
    cases p with
    | none => rfl
    | some p =>
      simp only [run_resJson_doc]
      cases db.stringify p <;> rfl
  | error e => rfl

/-- Every run of the delete handler, by the outcome of `findByIdAndDelete`. -/
theorem serve_deleteProduct (env : Env) (db : Db Doc Payload) (req : Request Payload) :
    serve (deleteProduct env db req) =
      match db.findByIdAndDelete req.id with
      | .ok (some _) =>
        (.ok (), { calls := [.findByIdAndDelete req.id], logs := [],
                   sent := [⟨200, .obj [("message", .str "Product deleted successfully")]⟩] })
      | .ok none =>
        (.ok (), { calls := [.findByIdAndDelete req.id], logs := [],
                   sent := [⟨404, errorBody "Product not found"⟩] })
      | .error e =>
        (.ok (), { calls := [.findByIdAndDelete req.id], logs := [],
                   sent := [⟨500, errorBody e.message⟩] }) := by
  unfold serve deleteProduct
  simp only [run_tryCatch, run_bind, run_modelCall, run_resJson_obj, run_pure]
  cases db.findByIdAndDelete req.id with
  | ok p => cases p <;> rfl
  | error e => rfl

/-- The name test of the read handlers, spelled out. -/
theorem isConnectionError_iff (e : JsError) :
    isConnectionError e = true ↔
      e.name = "MongoServerSelectionError" ∨ e.name = "MongoNetworkError" := by
  simp [isConnectionError]

/-- The catch response of a read handler for one of the two connection error names. -/
theorem readFailure_connection (e : JsError)
    (h : e.name = "MongoServerSelectionError" ∨ e.name = "MongoNetworkError") :
    (readFailure e : Response Doc) =
      ⟨503, .obj [("error", .str "Database connection error"),
        ("message", .str "Unable to connect to MongoDB. Please check your database connection.")]⟩ := by
  unfold readFailure
  rw [(isConnectionError_iff e).2 h]
  rfl

/-- The catch response of a read handler for any other error. -/
theorem readFailure_other (e : JsError)
    (h : ¬ (e.name = "MongoServerSelectionError" ∨ e.name = "MongoNetworkError")) :
    (readFailure e : Response Doc) = ⟨500, .obj [("error", .str e.message)]⟩ := by
  have hc : isConnectionError e = false := by
    rw [← Bool.not_eq_true, isConnectionError_iff]
    exact h
  unfold readFailure
  rw [hc]
  rfl

/-- The responses of the list handler. -/
theorem responses_getAllProducts (env : Env) (db : Db Doc Payload) (req : Request Payload) :
    responses (getAllProducts env db req) =
      match db.find (buildQuery req.category req.search) [("createdAt", -1)] 30000 with
      | .ok ps =>
        match stringifyAll db.stringify ps with
        | .ok _ => [⟨200, .docs ps⟩]
        | .error e => [readFailure e]
      | .error e => [readFailure e] := by
  unfold responses
  rw [serve_getAllProducts]
  cases db.find (buildQuery req.category req.search) [("createdAt", -1)] 30000 with
  | ok ps =>
    simp only []
    cases stringifyAll db.stringify ps <;> rfl
  | error e => rfl

/-- The responses of the get-one handler. -/
theorem responses_getSingleProduct (env : Env) (db : Db Doc Payload) (req : Request Payload) :
    responses (getSingleProduct env db req) =
      match db.findById req.id 30000 with
      | .ok (some p) =>
        match db.stringify p with
        | .ok _ => [⟨200, .doc p⟩]
        | .error e => [readFailure e]
      | .ok none => [⟨404, errorBody "Product not found"⟩]
      | .error e => [readFailure e] := by
  unfold responses
  rw [serve_getSingleProduct]
  cases db.findById req.id 30000 with
  | ok p =>
    cases p with
    | none => rfl
    | some p =>
      simp only []
      cases db.stringify p <;> rfl
  | error e => rfl

/-- The responses of the create handler. -/
theorem responses_createProduct (env : Env) (db : Db Doc Payload) (req : Request Payload) :
    responses (createProduct env db req) =
      match db.construct req.body with
      | .ok d =>
        match db.save d with
        | .ok saved =>
          match db.stringify saved with
          | .ok _ => [⟨201, .doc saved⟩]
          | .error e => [⟨400, errorBody e.message⟩]
        | .error e => [⟨400, errorBody e.message⟩]
      | .error e => [⟨400, errorBody e.message⟩] := by
  unfold responses
  rw [serve_createProduct]
  cases db.construct req.body with
  | ok d =>
    simp only []
    cases db.save d with
    | ok saved =>
      simp only []
      cases db.stringify saved <;> rfl
    | error e => rfl
  | error e => rfl

/-- The responses of the update handler. -/
theorem responses_updateProduct (env : Env) (db : Db Doc Payload) (req : Request Payload) :
    responses (updateProduct env db req) =
      match db.findByIdAndUpdate req.id req.body { new := true, runValidators := true } with
      | .ok (some p) =>
        match db.stringify p with
        | .ok _ => [⟨200, .doc p⟩]
        | .error e => [⟨400, errorBody e.message⟩]
      | .ok none => [⟨404, errorBody "Product not found"⟩]
      | .error e => [⟨400, errorBody e.message⟩] := by
  unfold responses
  rw [serve_updateProduct]
  cases db.findByIdAndUpdate req.id req.body { new := true, runValidators := true } with
  | ok p =>
    cases p with
    | none => rfl
    | some p =>
      simp only []
      cases db.stringify p <;> rfl
  | error e => rfl

/-- The responses of the delete handler. -/
theorem responses_deleteProduct (env : Env) (db : Db Doc Payload) (req : Request Payload) :
    responses (deleteProduct env db req) =
      match db.findByIdAndDelete req.id with
      | .ok (some _) => [⟨200, .obj [("message", .str "Product deleted successfully")]⟩]
      | .ok none => [⟨404, errorBody "Product not found"⟩]
      | .error e => [⟨500, errorBody e.message⟩] := by
  unfold responses
  rw [serve_deleteProduct]
  cases db.findByIdAndDelete req.id with
  | ok p => cases p <;> rfl
  | error e => rfl

/-- No handler lets a failure out: the outcome of every run is normal completion. -/
theorem escapes_handlers (env : Env) (db : Db Doc Payload) (req : Request Payload) :
    escapes (getAllProducts env db req) = false ∧
    escapes (getSingleProduct env db req) = false ∧
    escapes (createProduct env db req) = false ∧
    escapes (updateProduct env db req) = false ∧
    escapes (deleteProduct env db req) = false := by
  unfold escapes
  rw [serve_getAllProducts, serve_getSingleProduct, serve_createProduct, serve_updateProduct,
    serve_deleteProduct]
  refine ⟨?_, ?_, ?_, ?_, ?_⟩
  · cases db.find (buildQuery req.category req.search) [("createdAt", -1)] 30000 with
    | ok ps =>
      simp only []
      cases stringifyAll db.stringify ps <;> rfl
    | error e => rfl
  · cases db.findById req.id 30000 with
    | ok p =>
      cases p with
      | none => rfl
      | some p =>
        simp only []
        cases db.stringify p <;> rfl
    | error e => rfl
  · cases db.construct req.body with
    | ok d =>
      simp only []
      cases db.save d with
      | ok saved =>
        simp only []
        cases db.stringify saved <;> rfl
      | error e => rfl
    | error e => rfl
  · cases db.findByIdAndUpdate req.id req.body { new := true, runValidators := true } with
    | ok p =>
      cases p with
      | none => rfl
      | some p =>
        simp only []
        cases db.stringify p <;> rfl
    | error e => rfl
  · cases db.findByIdAndDelete req.id with
    | ok p => cases p <;> rfl
    | error e => rfl

/-- Each handler writes exactly one response. -/
theorem length_responses_handlers (env : Env) (db : Db Doc Payload) (req : Request Payload) :
    (responses (getAllProducts env db req)).length = 1 ∧
    (responses (getSingleProduct env db req)).length = 1 ∧
    (responses (createProduct env db req)).length = 1 ∧
    (responses (updateProduct env db req)).length = 1 ∧
    (responses (deleteProduct env db req)).length = 1 := by
  rw [responses_getAllProducts, responses_getSingleProduct, responses_createProduct,
    responses_updateProduct, responses_deleteProduct]
  refine ⟨?_, ?_, ?_, ?_, ?_⟩
  · cases db.find (buildQuery req.category req.search) [("createdAt", -1)] 30000 with
    | ok ps =>
      simp only []
      cases stringifyAll db.stringify ps <;> rfl
    | error e => rfl
  · cases db.findById req.id 30000 with
    | ok p =>
      cases p with
      | none => rfl
      | some p =>
        simp only []
        cases db.stringify p <;> rfl
    | error e => rfl
  · cases db.construct req.body with
    | ok d =>
      simp only []
      cases db.save d with
      | ok saved =>
        simp only []
        cases db.stringify saved <;> rfl
      | error e => rfl
    | error e => rfl
  · cases db.findByIdAndUpdate req.id req.body { new := true, runValidators := true } with
    | ok p =>
      cases p with
      | none => rfl
      | some p =>
        simp only []
        cases db.stringify p <;> rfl
    | error e => rfl
  · cases db.findByIdAndDelete req.id with
    | ok p => cases p <;> rfl
    | error e => rfl

/-- The filter by cases on the two query parameters. -/
theorem buildQuery_eq (category search : Option QVal) :
    buildQuery category search =
      { category := if truthy category then category else none
        or := if truthy search then
            search.map fun s =>
              [{ field := "name", regex := s, options := "i" },
               { field := "description", regex := s, options := "i" }]
          else none } := by
  unfold buildQuery
  cases hc : truthy category <;> cases hs : truthy search <;> cases search <;>
    simp_all [Id.run, truthy]

/-- A query parameter is truthy exactly when it is present and not the empty string. -/
theorem truthy_iff (v : Option QVal) :
    truthy v = true ↔ ∃ x, v = some x ∧ x ≠ .str "" := by
  cases v with
  | none => simp [truthy]
  | some x => cases x <;> simp [truthy, QVal.truthy]

/-- The catch response of a read handler is an error response with an `error` field. -/
theorem readFailure_error (e : JsError) :
    400 ≤ (readFailure e : Response Doc).status ∧
      ((readFailure e : Response Doc).body.field? "error").isSome = true := by
  unfold readFailure
  cases isConnectionError e <;>
    simp [connectionErrorBody, errorBody, Body.field?, List.lookup]

/-- When the catch response of a read handler is a 503, its body is the two-field
connection-error object. -/
theorem readFailure_body_of_503 (e : JsError)
    (h : (readFailure e : Response Doc).status = 503) :
    (readFailure e : Response Doc).body = connectionErrorBody := by
  unfold readFailure at h ⊢
  cases hc : isConnectionError e
  · simp [hc] at h
  · simp [hc]

/-- A 503 among the responses of the list handler has the connection-error body. -/
theorem getAllProducts_503_body (env : Env) (db : Db Doc Payload) (req : Request Payload)
    (r : Response Doc) (hr : r ∈ responses (getAllProducts env db req))
    (hs : r.status = 503) : r.body = connectionErrorBody := by
  rw [responses_getAllProducts] at hr
  cases hf : db.find (buildQuery req.category req.search) [("createdAt", -1)] 30000 with
  | ok ps =>
    rw [hf] at hr
    simp only [] at hr
    cases hj : stringifyAll db.stringify ps with
    | ok u =>
      rw [hj] at hr
      simp only [List.mem_singleton] at hr
      subst hr
      simp at hs
    | error e =>
      rw [hj] at hr
      simp only [List.mem_singleton] at hr
      subst hr
      exact readFailure_body_of_503 e hs
  | error e =>
    rw [hf] at hr
    simp only [List.mem_singleton] at hr
    subst hr
    exact readFailure_body_of_503 e hs

/-- A 503 among the responses of the get-one handler has the connection-error body. -/
theorem getSingleProduct_503_body (env : Env) (db : Db Doc Payload) (req : Request Payload)
    (r : Response Doc) (hr : r ∈ responses (getSingleProduct env db req))
    (hs : r.status = 503) : r.body = connectionErrorBody := by
  rw [responses_getSingleProduct] at hr
  cases hf : db.findById req.id 30000 with
  | ok p =>
    rw [hf] at hr
    cases p with
    | none =>
      simp only [List.mem_singleton] at hr
      subst hr
      simp at hs
    | some p =>
      simp only [] at hr
      cases hj : db.stringify p with
      | ok u =>
        rw [hj] at hr
        simp only [List.mem_singleton] at hr
        subst hr
        simp at hs
      | error e =>
        rw [hj] at hr
        simp only [List.mem_singleton] at hr
        subst hr
        exact readFailure_body_of_503 e hs
  | error e =>
    rw [hf] at hr
    simp only [List.mem_singleton] at hr
    subst hr
    exact readFailure_body_of_503 e hs

/-- No response of the create handler has status 200, 404, 500 or 503. -/
theorem createProduct_statuses (env : Env) (db : Db Doc Payload) (req : Request Payload)
    (r : Response Doc) (hr : r ∈ responses (createProduct env db req)) :
    r.status ≠ 200 ∧ r.status ≠ 404 ∧ r.status ≠ 500 ∧ r.status ≠ 503 := by
  rw [responses_createProduct] at hr
  cases h1 : db.construct req.body with
  | ok d =>
    rw [h1] at hr
    simp only [] at hr
    cases h2 : db.save d with
    | ok saved =>
      rw [h2] at hr
      simp only [] at hr
      cases h3 : db.stringify saved <;> rw [h3] at hr <;>
        simp only [List.mem_singleton] at hr <;> subst hr <;> simp
    | error e =>
      rw [h2] at hr
      simp only [List.mem_singleton] at hr
      subst hr
      simp
  | error e =>
    rw [h1] at hr
    simp only [List.mem_singleton] at hr
    subst hr
    simp

/-- No response of the update handler has status 500 or 503. -/
theorem updateProduct_statuses (env : Env) (db : Db Doc Payload) (req : Request Payload)
    (r : Response Doc) (hr : r ∈ responses (updateProduct env db req)) :
    r.status ≠ 500 ∧ r.status ≠ 503 := by
  rw [responses_updateProduct] at hr
  cases h : db.findByIdAndUpdate req.id req.body { new := true, runValidators := true } with
  | ok p =>
    rw [h] at hr
    cases p with
    | none =>
      simp only [List.mem_singleton] at hr
      subst hr
      simp
    | some p =>
      simp only [] at hr
      cases h3 : db.stringify p <;> rw [h3] at hr <;>
        simp only [List.mem_singleton] at hr <;> subst hr <;> simp
  | error e =>
    rw [h] at hr
    simp only [List.mem_singleton] at hr
    subst hr
    simp

/-- No response of the delete handler has status 400 or 503. -/
theorem deleteProduct_statuses (env : Env) (db : Db Doc Payload) (req : Request Payload)
    (r : Response Doc) (hr : r ∈ responses (deleteProduct env db req)) :
    r.status ≠ 400 ∧ r.status ≠ 503 := by
  rw [responses_deleteProduct] at hr
  cases h : db.findByIdAndDelete req.id with
  | ok p =>
    rw [h] at hr
    cases p <;> simp only [List.mem_singleton] at hr <;> subst hr <;> simp
  | error e =>
    rw [h] at hr
    simp only [List.mem_singleton] at hr
    subst hr
    simp

/-! ## The connection guard -/

/-- C1: on `GET /` and `GET /:id`, when the connectivity state is not 1 the route
writes exactly one response, with status 503 and a body whose `error` and `message`
are strings and whose `readyState` is the state; no model call is issued, and the
whole run is the same for every model and request.  When the state is 1 the guard
writes nothing and the run of the route is the run of the handler. -/
theorem checkConnection_gates_reads (env : Env) (db db2 : Db Doc Payload)
    (req req2 : Request Payload) :
    (env.readyState ≠ 1 →
      (responses (routeGetAll env db req) = [⟨503, guardBody env.readyState⟩] ∧
       dbCalls (routeGetAll env db req) = [] ∧
       serve (routeGetAll env db req) = serve (routeGetAll env db2 req2)) ∧
      (responses (routeGetOne env db req) = [⟨503, guardBody env.readyState⟩] ∧
       dbCalls (routeGetOne env db req) = [] ∧
       serve (routeGetOne env db req) = serve (routeGetOne env db2 req2)) ∧
      (guardBody env.readyState : Body Doc).field? "error" =
        some (.str "Database connection not available") ∧
      (∃ text, (guardBody env.readyState : Body Doc).field? "message" = some (.str text)) ∧
      (guardBody env.readyState : Body Doc).field? "readyState" = some (.num env.readyState)) ∧
    (env.readyState = 1 →
      serve (routeGetAll env db req) = serve (getAllProducts env db req) ∧
      serve (routeGetOne env db req) = serve (getSingleProduct env db req)) := by
  constructor
  · intro h
    refine ⟨⟨?_, ?_, ?_⟩, ⟨?_, ?_, ?_⟩, rfl, ⟨_, rfl⟩, rfl⟩
    · unfold responses routeGetAll
      rw [serve_checkConnection_closed env db _ h]
    · unfold dbCalls routeGetAll
      rw [serve_checkConnection_closed env db _ h]
    · unfold routeGetAll
      rw [serve_checkConnection_closed env db _ h, serve_checkConnection_closed env db2 _ h]
    · unfold responses routeGetOne
      rw [serve_checkConnection_closed env db _ h]
    · unfold dbCalls routeGetOne
      rw [serve_checkConnection_closed env db _ h]
    · unfold routeGetOne
      rw [serve_checkConnection_closed env db _ h, serve_checkConnection_closed env db2 _ h]
  · intro h
    exact ⟨serve_checkConnection_open env db _ h, serve_checkConnection_open env db _ h⟩

/-- C1, at state 0 (disconnected) against a working model and a failing one, and at
state 1 against a working model. -/
theorem checkConnection_gates_reads_witness :
    ((0 : Int) ≠ 1 ∧
      responses (routeGetAll ⟨0⟩ okDb sampleReq) = [⟨503, guardBody 0⟩] ∧
      dbCalls (routeGetAll ⟨0⟩ okDb sampleReq) = [] ∧
      serve (routeGetAll ⟨0⟩ okDb sampleReq) =
        serve (routeGetAll ⟨0⟩ (failingDb networkError) plainReq)) ∧
    ((1 : Int) = 1 ∧
      serve (routeGetOne ⟨1⟩ okDb sampleReq) = serve (getSingleProduct ⟨1⟩ okDb sampleReq)) :=
  ⟨⟨by decide,
    ((checkConnection_gates_reads ⟨0⟩ okDb (failingDb networkError) sampleReq plainReq).1
      (by decide)).1⟩,
   ⟨rfl,
    ((checkConnection_gates_reads ⟨1⟩ okDb okDb sampleReq sampleReq).2 rfl).2⟩⟩

/-! ## Connectivity-error payloads -/

/-- C2 as stated fails: with the connection ready and `find` rejecting with a
`MongoNetworkError`, `GET /` answers 503 with a body that has no `readyState`. -/
theorem handler_503_lacks_readyState :
    ¬ ∀ r ∈ responses (routeGetAll ⟨1⟩ (failingDb networkError) sampleReq),
        r.status = 503 →
          (r.body.field? "error").isSome = true ∧ (r.body.field? "message").isSome = true ∧
            (r.body.field? "readyState").isSome = true := by
  intro h
  have h1 := h ⟨503, connectionErrorBody⟩ (by
    unfold responses routeGetAll
    rw [serve_checkConnection_open _ _ _ rfl, serve_getAllProducts]
    simp [failingDb, networkError, readFailure, isConnectionError]) rfl
  simp [connectionErrorBody, Body.field?, List.lookup] at h1

/-- C2, amended: every response with status 503 written by any of the five routes
carries `error` and `message`.  When the guard wrote it, that is when the
connectivity state is not 1, its body is exactly the guard's object, with the three
keys `error`, `message` and `readyState`, the last equal to the state.  When a read
handler wrote it for a caught connection error, its body is exactly the two-key
object with `error` and `message`, and there is no `readyState`. -/
theorem status_503_payload (env : Env) (db : Db Doc Payload) (req : Request Payload)
    (r : Response Doc)
    (hr : r ∈ responses (routeGetAll env db req) ∨ r ∈ responses (routeGetOne env db req) ∨
      r ∈ responses (routePost env db req) ∨ r ∈ responses (routePut env db req) ∨
      r ∈ responses (routeDelete env db req))
    (hs : r.status = 503) :
    (env.readyState ≠ 1 →
      r.body = .obj
        [("error", .str "Database connection not available"),
         ("message", .str "MongoDB is not connected. Please check your database connection string and try again."),
         ("readyState", .num env.readyState)]) ∧
    (env.readyState = 1 →
      r.body = .obj
        [("error", .str "Database connection error"),
         ("message", .str "Unable to connect to MongoDB. Please check your database connection.")]) ∧
    (r.body.field? "error").isSome = true ∧ (r.body.field? "message").isSome = true ∧
      r.body.field? "readyState" =
        if env.readyState ≠ 1 then some (.num env.readyState) else none := by
  have guardCase : env.readyState ≠ 1 → r.body = guardBody env.readyState →
      (env.readyState ≠ 1 → r.body = guardBody env.readyState) ∧
      (env.readyState = 1 → r.body = connectionErrorBody) ∧
      (r.body.field? "error").isSome = true ∧ (r.body.field? "message").isSome = true ∧
        r.body.field? "readyState" =
          if env.readyState ≠ 1 then some (.num env.readyState) else none := by
    intro h hEq
    refine ⟨fun _ => hEq, fun h1 => absurd h1 h, ?_⟩
    rw [hEq]
    simp [h, guardBody, Body.field?, List.lookup]
  have catchCase : env.readyState = 1 → r.body = connectionErrorBody →
      (env.readyState ≠ 1 → r.body = guardBody env.readyState) ∧
      (env.readyState = 1 → r.body = connectionErrorBody) ∧
      (r.body.field? "error").isSome = true ∧ (r.body.field? "message").isSome = true ∧
        r.body.field? "readyState" =
          if env.readyState ≠ 1 then some (.num env.readyState) else none := by
    intro h hEq
    refine ⟨fun h1 => absurd h h1, fun _ => hEq, ?_⟩
    rw [hEq]
    simp [h, connectionErrorBody, Body.field?, List.lookup]
  rcases hr with hr | hr | hr | hr | hr
  · by_cases h : env.readyState = 1
    · unfold responses routeGetAll at hr
      rw [serve_checkConnection_open env db _ h] at hr
      exact catchCase h (getAllProducts_503_body env db req r hr hs)
    · unfold responses routeGetAll at hr
      rw [serve_checkConnection_closed env db _ h] at hr
      simp only [List.mem_singleton] at hr
      exact guardCase h (by rw [hr])
  · by_cases h : env.readyState = 1
    · unfold responses routeGetOne at hr
      rw [serve_checkConnection_open env db _ h] at hr
      exact catchCase h (getSingleProduct_503_body env db req r hr hs)
    · unfold responses routeGetOne at hr
      rw [serve_checkConnection_closed env db _ h] at hr
      simp only [List.mem_singleton] at hr
      exact guardCase h (by rw [hr])
  · exact absurd hs (createProduct_statuses env db req r hr).2.2.2
  · exact absurd hs (updateProduct_statuses env db req r hr).2
  · exact absurd hs (deleteProduct_statuses env db req r hr).2

/-- C2 amended, at the 503 that `GET /:id` writes for a caught `MongoNetworkError`
with the connection ready, and at the 503 the guard writes in state 0. -/
theorem status_503_payload_witness :
    (((⟨503, connectionErrorBody⟩ : Response Nat) ∈
        responses (routeGetOne ⟨1⟩ (failingDb networkError) sampleReq)) ∧
      (connectionErrorBody : Body Nat) = .obj
        [("error", .str "Database connection error"),
         ("message", .str "Unable to connect to MongoDB. Please check your database connection.")]) ∧
    (((⟨503, guardBody 0⟩ : Response Nat) ∈ responses (routeGetAll ⟨0⟩ okDb sampleReq)) ∧
      (guardBody 0 : Body Nat) = .obj
        [("error", .str "Database connection not available"),
         ("message", .str "MongoDB is not connected. Please check your database connection string and try again."),
         ("readyState", .num 0)]) :=
  have hmem : (⟨503, connectionErrorBody⟩ : Response Nat) ∈
      responses (routeGetOne ⟨1⟩ (failingDb networkError) sampleReq) := by
    unfold responses routeGetOne
    rw [serve_checkConnection_open _ _ _ rfl, serve_getSingleProduct]
    simp [failingDb, networkError, readFailure, isConnectionError]
  have gmem : (⟨503, guardBody 0⟩ : Response Nat) ∈
      responses (routeGetAll ⟨0⟩ okDb sampleReq) := by
    unfold responses routeGetAll
    rw [serve_checkConnection_closed _ _ _ (by decide)]
    simp
  ⟨⟨hmem, (status_503_payload ⟨1⟩ (failingDb networkError) sampleReq
      ⟨503, connectionErrorBody⟩ (Or.inr (Or.inl hmem)) rfl).2.1 rfl⟩,
   ⟨gmem, (status_503_payload ⟨0⟩ okDb sampleReq ⟨503, guardBody 0⟩ (Or.inl gmem) rfl).1
      (by decide)⟩⟩

/-! ## The list operation -/

/-- C3: the list handler issues one call, `find` with the filter built from the two
query parameters, the sort `createdAt: -1` and the time limit 30000.  The filter has
`category = C` exactly when the parameter `category` is present with a value `C`
other than the empty string; it has `$or` exactly when `search` is present with a
value `S` other than the empty string, and then `$or` is the two branches `name` and
`description`, both with `$regex: S` and `$options: "i"`; with both parameters absent
or empty the filter is the empty filter. -/
theorem list_query_shape (env : Env) (db : Db Doc Payload) (req : Request Payload) :
    dbCalls (getAllProducts env db req) =
      [.find (buildQuery req.category req.search) [("createdAt", -1)] 30000] ∧
    (∀ C, (buildQuery req.category req.search).category = some C ↔
      (req.category = some C ∧ C ≠ .str "")) ∧
    (∀ branches, (buildQuery req.category req.search).or = some branches ↔
      ∃ S, req.search = some S ∧ S ≠ .str "" ∧
        branches = [{ field := "name", regex := S, options := "i" },
                    { field := "description", regex := S, options := "i" }]) ∧
    ((req.category = none ∨ req.category = some (.str "")) ∧
      (req.search = none ∨ req.search = some (.str "")) →
        buildQuery req.category req.search = { category := none, or := none }) := by
  refine ⟨?_, ?_, ?_, ?_⟩
  · unfold dbCalls
    rw [serve_getAllProducts]
    cases db.find (buildQuery req.category req.search) [("createdAt", -1)] 30000 with
    | ok ps =>
      simp only []
      cases stringifyAll db.stringify ps <;> rfl
    | error e => rfl
  · intro C
    rw [buildQuery_eq]
    cases hc : truthy req.category
    · have hn := hc
      rw [← Bool.not_eq_true, truthy_iff] at hn
      simp only [Bool.false_eq_true, if_false]
      constructor
      · intro h
        cases h
      · rintro ⟨h1, h2⟩
        exact absurd ⟨C, h1, h2⟩ hn
    · obtain ⟨x, hx, hne⟩ := (truthy_iff _).1 hc
      simp only [if_true, hx, Option.some.injEq]
      constructor
      · intro h
        subst h
        exact ⟨rfl, hne⟩
      · intro h
        exact h.1
  · intro branches
    rw [buildQuery_eq]
    cases hc : truthy req.search
    · have hn := hc
      rw [← Bool.not_eq_true, truthy_iff] at hn
      simp only [Bool.false_eq_true, if_false]
      constructor
      · intro h
        cases h
      · rintro ⟨S, h1, h2, _⟩
        exact absurd ⟨S, h1, h2⟩ hn
    · obtain ⟨x, hx, hne⟩ := (truthy_iff _).1 hc
      simp only [if_true, hx, Option.map_some', Option.some.injEq]
      constructor
      · intro h
        exact ⟨x, rfl, hne, h.symm⟩
      · rintro ⟨S, h1, _, h3⟩
        subst h1
        exact h3.symm
  · rintro ⟨h1, h2⟩
    rw [buildQuery_eq]
    have t1 : truthy req.category = false := by
      rcases h1 with h | h <;> rw [h] <;> rfl
    have t2 : truthy req.search = false := by
      rcases h2 with h | h <;> rw [h] <;> rfl
    simp [t1, t2]

/-- C3 on `?category=shoes&search=red` and on a request with no category and an
empty search text. -/
theorem list_query_shape_witness :
    (buildQuery sampleReq.category sampleReq.search).category = some (.str "shoes") ∧
    (buildQuery sampleReq.category sampleReq.search).or =
      some [{ field := "name", regex := .str "red", options := "i" },
            { field := "description", regex := .str "red", options := "i" }] ∧
    buildQuery plainReq.category plainReq.search = { category := none, or := none } :=
  ⟨((list_query_shape ⟨1⟩ okDb sampleReq).2.1 (.str "shoes")).2 ⟨rfl, by simp⟩,
   ((list_query_shape ⟨1⟩ okDb sampleReq).2.2.1 _).2 ⟨.str "red", rfl, by simp, rfl⟩,
   (list_query_shape ⟨1⟩ okDb plainReq).2.2.2 ⟨Or.inl rfl, Or.inr rfl⟩⟩

/-- C4 as stated fails: `find` resolves with the records 3, 0, 1, of which 0 does not
serialise; `res.json` throws inside the `try`, and the `catch` answers 500. -/
theorem list_unserialisable_gives_500 :
    responses (getAllProducts ⟨1⟩ circularDb sampleReq) =
      [⟨500, .obj [("error", .str "Converting circular structure to JSON")]⟩] ∧
    ¬ (∀ ps, circularDb.find (buildQuery sampleReq.category sampleReq.search)
          [("createdAt", -1)] 30000 = .ok ps →
        responses (getAllProducts ⟨1⟩ circularDb sampleReq) = [⟨200, .docs ps⟩]) := by
  have hrun : responses (getAllProducts ⟨1⟩ circularDb sampleReq) =
      [⟨500, .obj [("error", .str "Converting circular structure to JSON")]⟩] := by
    rw [responses_getAllProducts]
    simp [circularDb, stringifyAll, readFailure, isConnectionError, circularError, errorBody]
  refine ⟨hrun, ?_⟩
  intro h
  have h2 := h [3, 0, 1] rfl
  rw [hrun] at h2
  simp at h2

/-- C4, amended: in the list handler, when `find` resolves with a sequence of records
each of which serialises, the one response is 200 with exactly that sequence (the
empty sequence included).  When `find` resolves but serialising the sequence throws,
or when `find` rejects, the error goes to the `catch`: named
`MongoServerSelectionError` or `MongoNetworkError` it gives 503 with the
connection-error payload, otherwise 500 with `error` equal to the error message. -/
theorem list_outcomes (env : Env) (db : Db Doc Payload) (req : Request Payload) :
    (∀ ps, db.find (buildQuery req.category req.search) [("createdAt", -1)] 30000 = .ok ps →
      (∀ p ∈ ps, db.stringify p = .ok ()) →
      responses (getAllProducts env db req) = [⟨200, .docs ps⟩]) ∧
    (db.find (buildQuery req.category req.search) [("createdAt", -1)] 30000 = .ok [] →
      responses (getAllProducts env db req) = [⟨200, .docs []⟩]) ∧
    (∀ e, (db.find (buildQuery req.category req.search) [("createdAt", -1)] 30000 = .error e ∨
        ∃ ps, db.find (buildQuery req.category req.search) [("createdAt", -1)] 30000 = .ok ps ∧
          stringifyAll db.stringify ps = .error e) →
      (e.name = "MongoServerSelectionError" ∨ e.name = "MongoNetworkError") →
      responses (getAllProducts env db req) =
        [⟨503, .obj [("error", .str "Database connection error"),
          ("message", .str "Unable to connect to MongoDB. Please check your database connection.")]⟩]) ∧
    (∀ e, (db.find (buildQuery req.category req.search) [("createdAt", -1)] 30000 = .error e ∨
        ∃ ps, db.find (buildQuery req.category req.search) [("createdAt", -1)] 30000 = .ok ps ∧
          stringifyAll db.stringify ps = .error e) →
      ¬ (e.name = "MongoServerSelectionError" ∨ e.name = "MongoNetworkError") →
      responses (getAllProducts env db req) = [⟨500, .obj [("error", .str e.message)]⟩]) := by
  have caught : ∀ e,
      (db.find (buildQuery req.category req.search) [("createdAt", -1)] 30000 = .error e ∨
        ∃ ps, db.find (buildQuery req.category req.search) [("createdAt", -1)] 30000 = .ok ps ∧
          stringifyAll db.stringify ps = .error e) →
      responses (getAllProducts env db req) = [readFailure e] := by
    intro e h
    rw [responses_getAllProducts]
    rcases h with h | ⟨ps, h1, h2⟩
    · rw [h]
    · rw [h1]
      simp only []
      rw [h2]
  refine ⟨?_, ?_, ?_, ?_⟩
  · intro ps h hj
    rw [responses_getAllProducts, h]
    simp only []
    rw [(stringifyAll_ok_iff db.stringify ps).2 hj]
  · intro h
    rw [responses_getAllProducts, h]
    rfl
  · intro e h hn
    rw [caught e h, readFailure_connection e hn]
  · intro e h hn
    rw [caught e h, readFailure_other e hn]

/-- C4 amended, on a model with three records, one with none, one that lost the
connection, one that rejects with a cast error and one whose record 0 does not
serialise. -/
theorem list_outcomes_witness :
    responses (getAllProducts ⟨1⟩ okDb sampleReq) = [⟨200, .docs [3, 2, 1]⟩] ∧
    responses (getAllProducts ⟨1⟩ emptyDb sampleReq) = [⟨200, .docs []⟩] ∧
    responses (getAllProducts ⟨1⟩ (failingDb networkError) sampleReq) =
      [⟨503, .obj [("error", .str "Database connection error"),
        ("message", .str "Unable to connect to MongoDB. Please check your database connection.")]⟩] ∧
    responses (getAllProducts ⟨1⟩ (failingDb castError) sampleReq) =
      [⟨500, .obj [("error", .str "Cast to ObjectId failed")]⟩] ∧
    responses (getAllProducts ⟨1⟩ circularDb sampleReq) =
      [⟨500, .obj [("error", .str "Converting circular structure to JSON")]⟩] :=
  ⟨(list_outcomes ⟨1⟩ okDb sampleReq).1 [3, 2, 1] rfl (fun _ _ => rfl),
   (list_outcomes ⟨1⟩ emptyDb sampleReq).2.1 rfl,
   (list_outcomes ⟨1⟩ (failingDb networkError) sampleReq).2.2.1 networkError (Or.inl rfl)
     (Or.inr rfl),
   (list_outcomes ⟨1⟩ (failingDb castError) sampleReq).2.2.2 castError (Or.inl rfl)
     (by decide),
   (list_outcomes ⟨1⟩ circularDb sampleReq).2.2.2 circularError
     (Or.inr ⟨[3, 0, 1], rfl, rfl⟩) (by decide)⟩

/-! ## The get-one operation -/

/-- C5 as stated fails: `findById` resolves with record 0, which does not serialise;
`res.json` throws inside the `try`, and the `catch` answers 500, not 200. -/
theorem get_one_unserialisable_gives_500 :
    responses (getSingleProduct ⟨1⟩ circularDb sampleReq) =
      [⟨500, .obj [("error", .str "Converting circular structure to JSON")]⟩] ∧
    ¬ (∀ p, circularDb.findById sampleReq.id 30000 = .ok (some p) →
        responses (getSingleProduct ⟨1⟩ circularDb sampleReq) = [⟨200, .doc p⟩]) := by
  have hrun : responses (getSingleProduct ⟨1⟩ circularDb sampleReq) =
      [⟨500, .obj [("error", .str "Converting circular structure to JSON")]⟩] := by
    rw [responses_getSingleProduct]
    simp [circularDb, readFailure, isConnectionError, circularError, errorBody]
  refine ⟨hrun, ?_⟩
  intro h
  have h2 := h 0 rfl
  rw [hrun] at h2
  simp at h2

/-- C5, amended: in the get-one handler, a record found that serialises gives 200 with
that record; no record gives 404 with an `error` payload, hence neither 200 nor 500.
When `findById` rejects, or the record found throws on serialising, the error goes to
the `catch`: named `MongoServerSelectionError` or `MongoNetworkError` it gives 503,
otherwise (the cast error of a malformed identifier included) 500 with `error` equal
to the error message. -/
theorem get_one_outcomes (env : Env) (db : Db Doc Payload) (req : Request Payload) :
    (∀ p, db.findById req.id 30000 = .ok (some p) → db.stringify p = .ok () →
      responses (getSingleProduct env db req) = [⟨200, .doc p⟩]) ∧
    (db.findById req.id 30000 = .ok none →
      responses (getSingleProduct env db req) =
        [⟨404, .obj [("error", .str "Product not found")]⟩] ∧
      ∀ r ∈ responses (getSingleProduct env db req), r.status ≠ 200 ∧ r.status ≠ 500) ∧
    (∀ e, (db.findById req.id 30000 = .error e ∨
        ∃ p, db.findById req.id 30000 = .ok (some p) ∧ db.stringify p = .error e) →
      (e.name = "MongoServerSelectionError" ∨ e.name = "MongoNetworkError") →
      responses (getSingleProduct env db req) =
        [⟨503, .obj [("error", .str "Database connection error"),
          ("message", .str "Unable to connect to MongoDB. Please check your database connection.")]⟩]) ∧
    (∀ e, (db.findById req.id 30000 = .error e ∨
        ∃ p, db.findById req.id 30000 = .ok (some p) ∧ db.stringify p = .error e) →
      ¬ (e.name = "MongoServerSelectionError" ∨ e.name = "MongoNetworkError") →
      responses (getSingleProduct env db req) = [⟨500, .obj [("error", .str e.message)]⟩]) ∧
    (∀ e, db.findById req.id 30000 = .error e → e.name = "CastError" →
      responses (getSingleProduct env db req) = [⟨500, .obj [("error", .str e.message)]⟩]) := by
  have caught : ∀ e, (db.findById req.id 30000 = .error e ∨
        ∃ p, db.findById req.id 30000 = .ok (some p) ∧ db.stringify p = .error e) →
      responses (getSingleProduct env db req) = [readFailure e] := by
    intro e h
    rw [responses_getSingleProduct]
    rcases h with h | ⟨p, h1, h2⟩
    · rw [h]
    · rw [h1]
      simp only []
      rw [h2]
  refine ⟨?_, ?_, ?_, ?_, ?_⟩
  · intro p h hj
    rw [responses_getSingleProduct, h]
    simp only []
    rw [hj]
  · intro h
    rw [responses_getSingleProduct, h]
    refine ⟨rfl, ?_⟩
    intro r hr
    simp only [List.mem_singleton] at hr
    subst hr
    exact ⟨by simp, by simp⟩
  · intro e h hn
    rw [caught e h, readFailure_connection e hn]
  · intro e h hn
    rw [caught e h, readFailure_other e hn]
  · intro e h hname
    rw [caught e (Or.inl h), readFailure_other e]
    rw [hname]
    decide

/-- C5 amended, on a model that finds record 5, one that finds nothing, one that lost
the connection, one that rejects a malformed identifier and one whose record does not
serialise. -/
theorem get_one_outcomes_witness :
    responses (getSingleProduct ⟨1⟩ okDb sampleReq) = [⟨200, .doc 5⟩] ∧
    responses (getSingleProduct ⟨1⟩ emptyDb sampleReq) =
      [⟨404, .obj [("error", .str "Product not found")]⟩] ∧
    responses (getSingleProduct ⟨1⟩ (failingDb networkError) sampleReq) =
      [⟨503, .obj [("error", .str "Database connection error"),
        ("message", .str "Unable to connect to MongoDB. Please check your database connection.")]⟩] ∧
    responses (getSingleProduct ⟨1⟩ (failingDb castError) sampleReq) =
      [⟨500, .obj [("error", .str "Cast to ObjectId failed")]⟩] ∧
    responses (getSingleProduct ⟨1⟩ circularDb sampleReq) =
      [⟨500, .obj [("error", .str "Converting circular structure to JSON")]⟩] :=
  ⟨(get_one_outcomes ⟨1⟩ okDb sampleReq).1 5 rfl rfl,
   ((get_one_outcomes ⟨1⟩ emptyDb sampleReq).2.1 rfl).1,
   (get_one_outcomes ⟨1⟩ (failingDb networkError) sampleReq).2.2.1 networkError (Or.inl rfl)
     (Or.inr rfl),
   (get_one_outcomes ⟨1⟩ (failingDb castError) sampleReq).2.2.2.2 castError rfl rfl,
   (get_one_outcomes ⟨1⟩ circularDb sampleReq).2.2.2.1 circularError
     (Or.inr ⟨0, rfl, rfl⟩) (by decide)⟩

/-! ## The write operations -/

/-- C6 as stated fails: construction and save succeed with record 0, which does not
serialise; `res.status(201).json` throws inside the `try`, and the `catch` answers
400, not 201. -/
theorem create_unserialisable_gives_400 :
    responses (createProduct ⟨1⟩ circularDb sampleReq) =
      [⟨400, .obj [("error", .str "Converting circular structure to JSON")]⟩] ∧
    ¬ (∀ d saved, circularDb.construct sampleReq.body = .ok d →
        circularDb.save d = .ok saved →
        responses (createProduct ⟨1⟩ circularDb sampleReq) = [⟨201, .doc saved⟩]) := by
  have hrun : responses (createProduct ⟨1⟩ circularDb sampleReq) =
      [⟨400, .obj [("error", .str "Converting circular structure to JSON")]⟩] := by
    rw [responses_createProduct]
    simp [circularDb, circularError, errorBody]
  refine ⟨hrun, ?_⟩
  intro h
  have h2 := h 0 0 rfl rfl
  rw [hrun] at h2
  simp at h2

/-- C6, amended: in the create handler, when construction and save succeed and the
saved record serialises, the one response is 201 with the saved record; when
construction throws, save rejects, or serialising the saved record throws, with any
error at all, the response is 400 with `error` equal to the error message.  No
response of the create handler has status 200, 404, 500 or 503. -/
theorem create_outcomes (env : Env) (db : Db Doc Payload) (req : Request Payload) :
    (∀ d saved, db.construct req.body = .ok d → db.save d = .ok saved →
      db.stringify saved = .ok () →
      responses (createProduct env db req) = [⟨201, .doc saved⟩]) ∧
    (∀ e, db.construct req.body = .error e →
      responses (createProduct env db req) = [⟨400, .obj [("error", .str e.message)]⟩]) ∧
    (∀ d e, db.construct req.body = .ok d → db.save d = .error e →
      responses (createProduct env db req) = [⟨400, .obj [("error", .str e.message)]⟩]) ∧
    (∀ d saved e, db.construct req.body = .ok d → db.save d = .ok saved →
      db.stringify saved = .error e →
      responses (createProduct env db req) = [⟨400, .obj [("error", .str e.message)]⟩]) ∧
    (∀ r ∈ responses (createProduct env db req),
      r.status ≠ 200 ∧ r.status ≠ 404 ∧ r.status ≠ 500 ∧ r.status ≠ 503) := by
  refine ⟨?_, ?_, ?_, ?_, ?_⟩
  · intro d saved h1 h2 h3
    rw [responses_createProduct, h1]
    simp only []
    rw [h2]
    simp only []
    rw [h3]
  · intro e h1
    rw [responses_createProduct, h1]
    rfl
  · intro d e h1 h2
    rw [responses_createProduct, h1]
    simp only []
    rw [h2]
    rfl
  · intro d saved e h1 h2 h3
    rw [responses_createProduct, h1]
    simp only []
    rw [h2]
    simp only []
    rw [h3]
    rfl
  · intro r hr
    exact createProduct_statuses env db req r hr

/-- C6 amended, on a model that saves record 8 as 9, on one whose constructor throws a
connection error, and on one whose saved record does not serialise. -/
theorem create_outcomes_witness :
    responses (createProduct ⟨1⟩ okDb sampleReq) = [⟨201, .doc 9⟩] ∧
    responses (createProduct ⟨1⟩ (failingDb networkError) sampleReq) =
      [⟨400, .obj [("error", .str "connection closed")]⟩] ∧
    responses (createProduct ⟨1⟩ circularDb sampleReq) =
      [⟨400, .obj [("error", .str "Converting circular structure to JSON")]⟩] :=
  ⟨(create_outcomes ⟨1⟩ okDb sampleReq).1 8 9 rfl rfl rfl,
   (create_outcomes ⟨1⟩ (failingDb networkError) sampleReq).2.1 networkError rfl,
   (create_outcomes ⟨1⟩ circularDb sampleReq).2.2.2.1 0 0 circularError rfl rfl rfl⟩

/-- C7 as stated fails: `findByIdAndUpdate` resolves with record 0, which does not
serialise; `res.json` throws inside the `try`, and the `catch` answers 400, not 200. -/
theorem update_unserialisable_gives_400 :
    responses (updateProduct ⟨1⟩ circularDb sampleReq) =
      [⟨400, .obj [("error", .str "Converting circular structure to JSON")]⟩] ∧
    ¬ (∀ p, circularDb.findByIdAndUpdate sampleReq.id sampleReq.body
          { new := true, runValidators := true } = .ok (some p) →
        responses (updateProduct ⟨1⟩ circularDb sampleReq) = [⟨200, .doc p⟩]) := by
  have hrun : responses (updateProduct ⟨1⟩ circularDb sampleReq) =
      [⟨400, .obj [("error", .str "Converting circular structure to JSON")]⟩] := by
    rw [responses_updateProduct]
    simp [circularDb, circularError, errorBody]
  refine ⟨hrun, ?_⟩
  intro h
  have h2 := h 0 rfl
  rw [hrun] at h2
  simp at h2

/-- C7, amended: the update handler issues one call, `findByIdAndUpdate` with the
identifier, the payload and the options `new: true` and `runValidators: true`.  When
it resolves with a record that serialises, the one response is 200 with that record;
when it resolves with no record the response is 404 with an `error` payload; when it
rejects, or the record throws on serialising, with any error, the response is 400
with `error` equal to the error message. -/
theorem update_outcomes (env : Env) (db : Db Doc Payload) (req : Request Payload) :
    dbCalls (updateProduct env db req) =
      [.findByIdAndUpdate req.id req.body { new := true, runValidators := true }] ∧
    (∀ p, db.findByIdAndUpdate req.id req.body { new := true, runValidators := true } =
        .ok (some p) → db.stringify p = .ok () →
      responses (updateProduct env db req) = [⟨200, .doc p⟩]) ∧
    (db.findByIdAndUpdate req.id req.body { new := true, runValidators := true } = .ok none →
      responses (updateProduct env db req) =
        [⟨404, .obj [("error", .str "Product not found")]⟩]) ∧
    (∀ e, db.findByIdAndUpdate req.id req.body { new := true, runValidators := true } =
        .error e →
      responses (updateProduct env db req) = [⟨400, .obj [("error", .str e.message)]⟩]) ∧
    (∀ p e, db.findByIdAndUpdate req.id req.body { new := true, runValidators := true } =
        .ok (some p) → db.stringify p = .error e →
      responses (updateProduct env db req) = [⟨400, .obj [("error", .str e.message)]⟩]) := by
  refine ⟨?_, ?_, ?_, ?_, ?_⟩
  · unfold dbCalls
    rw [serve_updateProduct]
    cases db.findByIdAndUpdate req.id req.body { new := true, runValidators := true } with
    | ok p =>
      cases p with
      | none => rfl
      | some p =>
        simp only []
        cases db.stringify p <;> rfl
    | error e => rfl
  · intro p h hj
    rw [responses_updateProduct, h]
    simp only []
    rw [hj]
  · intro h
    rw [responses_updateProduct, h]
    rfl
  · intro e h
    rw [responses_updateProduct, h]
    rfl
  · intro p e h hj
    rw [responses_updateProduct, h]
    simp only []
    rw [hj]
    rfl

/-- C7 amended, on a model that returns record 6, one that matches nothing, one that
rejects the identifier and one whose updated record does not serialise. -/
theorem update_outcomes_witness :
    responses (updateProduct ⟨1⟩ okDb sampleReq) = [⟨200, .doc 6⟩] ∧
    responses (updateProduct ⟨1⟩ emptyDb sampleReq) =
      [⟨404, .obj [("error", .str "Product not found")]⟩] ∧
    responses (updateProduct ⟨1⟩ (failingDb castError) sampleReq) =
      [⟨400, .obj [("error", .str "Cast to ObjectId failed")]⟩] ∧
    responses (updateProduct ⟨1⟩ circularDb sampleReq) =
      [⟨400, .obj [("error", .str "Converting circular structure to JSON")]⟩] :=
  ⟨(update_outcomes ⟨1⟩ okDb sampleReq).2.1 6 rfl rfl,
   (update_outcomes ⟨1⟩ emptyDb sampleReq).2.2.1 rfl,
   (update_outcomes ⟨1⟩ (failingDb castError) sampleReq).2.2.2.1 castError rfl,
   (update_outcomes ⟨1⟩ circularDb sampleReq).2.2.2.2 0 circularError rfl rfl⟩

/-- C8: in the delete handler, when `findByIdAndDelete` resolves with the removed
record the one response is 200 with a confirmation `message` and not the record; when
it resolves with no record the response is 404 with an `error` payload; when it
rejects with any error the response is 500 with `error` equal to the error message.
No response of the delete handler has status 400 or 503. -/
theorem delete_outcomes (env : Env) (db : Db Doc Payload) (req : Request Payload) :
    (∀ p, db.findByIdAndDelete req.id = .ok (some p) →
      responses (deleteProduct env db req) =
        [⟨200, .obj [("message", .str "Product deleted successfully")]⟩]) ∧
    (db.findByIdAndDelete req.id = .ok none →
      responses (deleteProduct env db req) =
        [⟨404, .obj [("error", .str "Product not found")]⟩]) ∧
    (∀ e, db.findByIdAndDelete req.id = .error e →
      responses (deleteProduct env db req) = [⟨500, .obj [("error", .str e.message)]⟩]) ∧
    (∀ r ∈ responses (deleteProduct env db req), r.status ≠ 400 ∧ r.status ≠ 503) := by
  refine ⟨?_, ?_, ?_, ?_⟩
  · intro p h
    rw [responses_deleteProduct, h]
  · intro h
    rw [responses_deleteProduct, h]
    rfl
  · intro e h
    rw [responses_deleteProduct, h]
    rfl
  · intro r hr
    rw [responses_deleteProduct] at hr
    cases h : db.findByIdAndDelete req.id with
    | ok p =>
      rw [h] at hr
      cases p <;> simp only [List.mem_singleton] at hr <;> subst hr <;> simp
    | error e =>
      rw [h] at hr
      simp only [List.mem_singleton] at hr
      subst hr
      simp

/-- C8 on a model that removes record 7, one that matches nothing and one that lost
the connection. -/
theorem delete_outcomes_witness :
    responses (deleteProduct ⟨1⟩ okDb sampleReq) =
      [⟨200, .obj [("message", .str "Product deleted successfully")]⟩] ∧
    responses (deleteProduct ⟨1⟩ emptyDb sampleReq) =
      [⟨404, .obj [("error", .str "Product not found")]⟩] ∧
    responses (deleteProduct ⟨1⟩ (failingDb networkError) sampleReq) =
      [⟨500, .obj [("error", .str "connection closed")]⟩] :=
  ⟨(delete_outcomes ⟨1⟩ okDb sampleReq).1 7 rfl,
   (delete_outcomes ⟨1⟩ emptyDb sampleReq).2.1 rfl,
   (delete_outcomes ⟨1⟩ (failingDb networkError) sampleReq).2.2.1 networkError rfl⟩

/-! ## Failure containment -/

/-- C9: each of the five handlers, for every outcome of its model call, writes exactly
one response and completes normally (nothing is thrown out of it), and so do the two
guarded read routes in every connectivity state; whenever the model call fails, the
response has status 400 or above and a body with an `error` field. -/
theorem handlers_respond_once (env : Env) (db : Db Doc Payload) (req : Request Payload) :
    ((responses (getAllProducts env db req)).length = 1 ∧
      escapes (getAllProducts env db req) = false ∧
      (∀ e, db.find (buildQuery req.category req.search) [("createdAt", -1)] 30000 = .error e →
        ∀ r ∈ responses (getAllProducts env db req),
          400 ≤ r.status ∧ (r.body.field? "error").isSome = true)) ∧
    ((responses (getSingleProduct env db req)).length = 1 ∧
      escapes (getSingleProduct env db req) = false ∧
      (∀ e, db.findById req.id 30000 = .error e →
        ∀ r ∈ responses (getSingleProduct env db req),
          400 ≤ r.status ∧ (r.body.field? "error").isSome = true)) ∧
    ((responses (createProduct env db req)).length = 1 ∧
      escapes (createProduct env db req) = false ∧
      (∀ e, (db.construct req.body = .error e ∨
          ∃ d, db.construct req.body = .ok d ∧ db.save d = .error e) →
        ∀ r ∈ responses (createProduct env db req),
          400 ≤ r.status ∧ (r.body.field? "error").isSome = true)) ∧
    ((responses (updateProduct env db req)).length = 1 ∧
      escapes (updateProduct env db req) = false ∧
      (∀ e, db.findByIdAndUpdate req.id req.body { new := true, runValidators := true } =
          .error e →
        ∀ r ∈ responses (updateProduct env db req),
          400 ≤ r.status ∧ (r.body.field? "error").isSome = true)) ∧
    ((responses (deleteProduct env db req)).length = 1 ∧
      escapes (deleteProduct env db req) = false ∧
      (∀ e, db.findByIdAndDelete req.id = .error e →
        ∀ r ∈ responses (deleteProduct env db req),
          400 ≤ r.status ∧ (r.body.field? "error").isSome = true)) ∧
    ((responses (routeGetAll env db req)).length = 1 ∧
      escapes (routeGetAll env db req) = false) ∧
    ((responses (routeGetOne env db req)).length = 1 ∧
      escapes (routeGetOne env db req) = false) := by
  obtain ⟨e1, e2, e3, e4, e5⟩ := escapes_handlers env db req
  obtain ⟨l1, l2, l3, l4, l5⟩ := length_responses_handlers env db req
  refine ⟨⟨l1, e1, ?_⟩, ⟨l2, e2, ?_⟩, ⟨l3, e3, ?_⟩, ⟨l4, e4, ?_⟩, ⟨l5, e5, ?_⟩, ?_, ?_⟩
  · intro e h r hr
    rw [responses_getAllProducts, h] at hr
    simp only [List.mem_singleton] at hr
    subst hr
    exact readFailure_error e
  · intro e h r hr
    rw [responses_getSingleProduct, h] at hr
    simp only [List.mem_singleton] at hr
    subst hr
    exact readFailure_error e
  · intro e h r hr
    rw [responses_createProduct] at hr
    rcases h with h | ⟨d, h1, h2⟩
    · rw [h] at hr
      simp only [List.mem_singleton] at hr
      subst hr
      simp [errorBody, Body.field?, List.lookup]
    · rw [h1] at hr
      simp only [] at hr
      rw [h2] at hr
      simp only [List.mem_singleton] at hr
      subst hr
      simp [errorBody, Body.field?, List.lookup]
  · intro e h r hr
    rw [responses_updateProduct, h] at hr
    simp only [List.mem_singleton] at hr
    subst hr
    simp [errorBody, Body.field?, List.lookup]
  · intro e h r hr
    rw [responses_deleteProduct, h] at hr
    simp only [List.mem_singleton] at hr
    subst hr
    simp [errorBody, Body.field?, List.lookup]
  · by_cases h : env.readyState = 1
    · have hs := serve_checkConnection_open env db (getAllProducts env db req) h
      constructor
      · unfold responses routeGetAll
        rw [hs]
        exact l1
      · unfold escapes routeGetAll
        rw [hs]
        exact e1
    · have hs := serve_checkConnection_closed env db (getAllProducts env db req) h
      constructor
      · unfold responses routeGetAll
        rw [hs]
        rfl
      · unfold escapes routeGetAll
        rw [hs]
  · by_cases h : env.readyState = 1
    · have hs := serve_checkConnection_open env db (getSingleProduct env db req) h
      constructor
      · unfold responses routeGetOne
        rw [hs]
        exact l2
      · unfold escapes routeGetOne
        rw [hs]
        exact e2
    · have hs := serve_checkConnection_closed env db (getSingleProduct env db req) h
      constructor
      · unfold responses routeGetOne
        rw [hs]
        rfl
      · unfold escapes routeGetOne
        rw [hs]

/-- C9 on a model whose every call fails with a cast error: each handler still
answers, with 500 or 400 and an `error` field. -/
theorem handlers_respond_once_witness :
    (∀ r ∈ responses (getAllProducts ⟨1⟩ (failingDb castError) sampleReq),
      400 ≤ r.status ∧ (r.body.field? "error").isSome = true) ∧
    (∀ r ∈ responses (createProduct ⟨1⟩ (failingDb castError) sampleReq),
      400 ≤ r.status ∧ (r.body.field? "error").isSome = true) ∧
    (∀ r ∈ responses (deleteProduct ⟨1⟩ (failingDb castError) sampleReq),
      400 ≤ r.status ∧ (r.body.field? "error").isSome = true) :=
  ⟨(handlers_respond_once ⟨1⟩ (failingDb castError) sampleReq).1.2.2 castError rfl,
   (handlers_respond_once ⟨1⟩ (failingDb castError) sampleReq).2.2.1.2.2 castError
     (Or.inl rfl),
   (handlers_respond_once ⟨1⟩ (failingDb castError) sampleReq).2.2.2.2.1.2.2 castError rfl⟩

/-! ## Write routes and the connectivity state -/

/-- C10: the runs of `POST /`, `PUT /:id` and `DELETE /:id` do not depend on the
connectivity state; none of their responses has status 503; and when the model call
fails with a connection error (as with any error) `POST` and `PUT` answer 400 and
`DELETE` answers 500. -/
theorem writes_ignore_connection_state (env env2 : Env) (db : Db Doc Payload)
    (req : Request Payload) :
    (serve (routePost env db req) = serve (routePost env2 db req) ∧
      serve (routePut env db req) = serve (routePut env2 db req) ∧
      serve (routeDelete env db req) = serve (routeDelete env2 db req)) ∧
    ((∀ r ∈ responses (routePost env db req), r.status ≠ 503) ∧
      (∀ r ∈ responses (routePut env db req), r.status ≠ 503) ∧
      (∀ r ∈ responses (routeDelete env db req), r.status ≠ 503)) ∧
    (∀ e, isConnectionError e = true →
      ((db.construct req.body = .error e ∨
          ∃ d, db.construct req.body = .ok d ∧ db.save d = .error e) →
        responses (routePost env db req) = [⟨400, .obj [("error", .str e.message)]⟩]) ∧
      (db.findByIdAndUpdate req.id req.body { new := true, runValidators := true } =
          .error e →
        responses (routePut env db req) = [⟨400, .obj [("error", .str e.message)]⟩]) ∧
      (db.findByIdAndDelete req.id = .error e →
        responses (routeDelete env db req) = [⟨500, .obj [("error", .str e.message)]⟩])) := by
  refine ⟨⟨rfl, rfl, rfl⟩, ⟨?_, ?_, ?_⟩, ?_⟩
  · intro r hr
    exact (createProduct_statuses env db req r hr).2.2.2
  · intro r hr
    exact (updateProduct_statuses env db req r hr).2
  · intro r hr
    exact (deleteProduct_statuses env db req r hr).2
  · intro e _
    refine ⟨?_, ?_, ?_⟩
    · intro h
      unfold routePost
      rw [responses_createProduct]
      rcases h with h | ⟨d, h1, h2⟩
      · rw [h]
        rfl
      · rw [h1]
        simp only []
        rw [h2]
        rfl
    · intro h
      unfold routePut
      rw [responses_updateProduct, h]
      rfl
    · intro h
      unfold routeDelete
      rw [responses_deleteProduct, h]
      rfl

/-- C10 with the connection lost (state 0) and every model call rejecting with a
`MongoNetworkError`: `POST` and `PUT` answer 400, `DELETE` answers 500. -/
theorem writes_ignore_connection_state_witness :
    responses (routePost ⟨0⟩ (failingDb networkError) sampleReq) =
      [⟨400, .obj [("error", .str "connection closed")]⟩] ∧
    responses (routePut ⟨0⟩ (failingDb networkError) sampleReq) =
      [⟨400, .obj [("error", .str "connection closed")]⟩] ∧
    responses (routeDelete ⟨0⟩ (failingDb networkError) sampleReq) =
      [⟨500, .obj [("error", .str "connection closed")]⟩] :=
  ⟨((writes_ignore_connection_state ⟨0⟩ ⟨1⟩ (failingDb networkError) sampleReq).2.2
      networkError (by decide)).1 (Or.inl rfl),
   ((writes_ignore_connection_state ⟨0⟩ ⟨1⟩ (failingDb networkError) sampleReq).2.2
      networkError (by decide)).2.1 rfl,
   ((writes_ignore_connection_state ⟨0⟩ ⟨1⟩ (failingDb networkError) sampleReq).2.2
      networkError (by decide)).2.2 rfl⟩

end Run

end ProductRoutes
